import Mathlib

/-!
Verification development for a Go RAG server (hybrid vector + graph retrieval).

The embedding models the package `services` (storage.go, gemini client) and the
package `handlers` (AddDocuments, Query, UploadDocumentGin) as pure Lean
functions over an explicit system state.  External collaborators (the Gemini
embedding gateway, the python triplet extractor subprocess, the PostgreSQL
connection and the Neo4j session) are modelled by an `Env` record of oracles:
each oracle says, for a given call, whether the external call succeeds and with
what payload.  Store contents, by contrast, are tracked exactly: the PostgreSQL
`documents` table is a list of rows with a serial id counter, and the Neo4j
graph is the sets of Document nodes, Token nodes, CONTAINS edges and PREDICATE
edges, with the Cypher MERGE / ON CREATE SET semantics of the queries in
storage.go reproduced (create-if-absent, first-write-wins on embeddings).

Concurrency in the batch handler (one goroutine per document, a mutex-guarded
error slice) is determinized to batch order: each document's pipeline runs to
completion before the next is considered.  This preserves the final store
contents and the multiset of collected errors, which is all the claims consult.
Go `nil` slices (the zero value a failed embedding call leaves behind) are
modelled by the empty list.
-/

namespace RagServer

/-- Embedding vectors; the claims only compare them, so `List Int` suffices. -/
abbrev Emb := List Int

/-- The Go zero value of `[]float32` (a nil slice), used when an embedding
call's error is discarded with `_`. -/
def zeroEmb : Emb := []

/-- `Triplet` from storage.go. -/
structure Triplet where
  subject : String
  predicate : String
  object : String
deriving DecidableEq

/-- The PostgreSQL `documents` table: rows `(id, content, embedding)` plus the
next value of the SERIAL id column. -/
structure VectorStore where
  rows : List (Nat × String × Emb)
  nextId : Nat
deriving DecidableEq

/-- The Neo4j graph: Document nodes `(id, content)`, Token nodes keyed by name
carrying an embedding, CONTAINS edges `(token name, doc id)`, and PREDICATE
edges keyed by `(subject, predicate, object)` carrying an embedding. -/
structure GraphStore where
  docs : List (Nat × String)
  tokens : List (String × Emb)
  containsEdges : List (String × Nat)
  predicateEdges : List ((String × String × String) × Emb)
deriving DecidableEq

/-- Whole-system state.  `graphConfigured` models whether `neo4jDriver` is
non-nil (NEO4J_URI was set at startup). -/
structure SysState where
  graphConfigured : Bool
  vec : VectorStore
  graph : GraphStore
deriving DecidableEq

/-- Oracles for the external collaborators.  A `some e` in an `...Err` field
means the corresponding external call fails with error message `e`. -/
structure Env where
  /-- `GetEmbedding` (Gemini gateway): result or error, per input text. -/
  embed : String → Except String Emb
  /-- the `extract_triplets.py` subprocess: `none` models subprocess failure or
  malformed JSON, which storage.go degrades to a whitespace split. -/
  extract : String → Option (List String × List Triplet)
  /-- failure of the pg `INSERT ... RETURNING id`, per content. -/
  pgInsertErr : String → Option String
  /-- failure of the pg nearest-neighbour `SELECT`. -/
  pgSearchErr : Option String
  /-- failure of the `MERGE (d:Document ...)` session run. -/
  docMergeErr : Option String
  /-- failure of the per-token MERGE session run, per token name. -/
  tokenRunErr : String → Option String
  /-- failure of the per-triplet MERGE session run, per triplet. -/
  tripletRunErr : Triplet → Option String
  /-- failure of the Neo4j `db.index.vector.queryNodes` search run. -/
  graphQueryErr : Option String
  /-- content found by the Neo4j token-similarity search; `""` when
  `result.Next` yields no record (the Go zero value of `neo4jContent`). -/
  graphQueryResult : String
  /-- `GenerateResponse` (Gemini generation), from (query, context). -/
  generate : String → String → Except String String

/-- Embedding stored on the Token node named `name`, if that node exists. -/
def lookupToken (g : GraphStore) (name : String) : Option Emb :=
  (g.tokens.find? (fun p => p.1 = name)).map (fun p => p.2)

/-- `MERGE (t:Token {name}) ON CREATE SET t.embedding = ...`: create-if-absent,
first-write-wins on the embedding. -/
def mergeTokenNode (g : GraphStore) (name : String) (emb : Emb) : GraphStore :=
  match lookupToken g name with
  | some _ => g
  | none => { g with tokens := g.tokens ++ [(name, emb)] }

/-- `MERGE (d:Document {id, content})`: create-if-absent keyed on both id and
content, as the Cypher pattern matches on both properties. -/
def mergeDocNode (g : GraphStore) (docID : Nat) (content : String) : GraphStore :=
  if (docID, content) ∈ g.docs then g
  else { g with docs := g.docs ++ [(docID, content)] }

/-- `MATCH (d:Document {id}) MERGE (t)-[:CONTAINS]->(d)`: the edge is created
only when a Document node with that id exists (MATCH filters), and edge
creation is idempotent. -/
def linkContains (g : GraphStore) (name : String) (docID : Nat) : GraphStore :=
  if g.docs.any (fun p => p.1 = docID) then
    if (name, docID) ∈ g.containsEdges then g
    else { g with containsEdges := g.containsEdges ++ [(name, docID)] }
  else g

/-- Embedding stored on the PREDICATE edge keyed by (subject, predicate,
object), if that edge exists. -/
def lookupPredicate (g : GraphStore) (key : String × String × String) : Option Emb :=
  (g.predicateEdges.find? (fun p => p.1 = key)).map (fun p => p.2)

/-- `MERGE (s)-[r:PREDICATE {name}]->(o) ON CREATE SET r.embedding = ...`:
create-if-absent, first-write-wins on the edge embedding. -/
def mergePredicateEdge (g : GraphStore) (key : String × String × String)
    (emb : Emb) : GraphStore :=
  match lookupPredicate g key with
  | some _ => g
  | none => { g with predicateEdges := g.predicateEdges ++ [(key, emb)] }

/-- `extractTokensAndTriplets` from storage.go: delegate to the python
subprocess; on its failure fall back to `strings.Split(content, " ")` and no
triplets. -/
def extractTokensAndTriplets (env : Env) (content : String) :
    List String × List Triplet :=
  match env.extract content with
  | none => (content.splitOn " ", [])
  | some r => r

/-- One iteration of the token loop in `AddTokenAndTriplets`: embed the token
(an error aborts with that error), then run the token MERGE query (token node
first-write-wins, then CONTAINS link). -/
def tokenStep (env : Env) (docID : Nat) (g : GraphStore) (token : String) :
    GraphStore × Option String :=
  match env.embed token with
  | .error e => (g, some e)
  | .ok temb =>
    match env.tokenRunErr token with
    | some e => (g, some e)
    | none => (linkContains (mergeTokenNode g token temb) token docID, none)

/-- The token loop of `AddTokenAndTriplets`: each failure returns immediately
(the Go `return err` inside the loop). -/
def tokenLoop (env : Env) (docID : Nat) :
    List String → GraphStore → GraphStore × Option String
  | [], g => (g, none)
  | t :: ts, g =>
    match tokenStep env docID g t with
    | (g1, some e) => (g1, some e)
    | (g1, none) => tokenLoop env docID ts g1

/-- `GetEmbedding` with the error discarded (`emb, _ := GetEmbedding(...)`): a
failed call leaves the nil-slice zero value. -/
def embedOrZero (env : Env) (text : String) : Emb :=
  match env.embed text with
  | .ok v => v
  | .error _ => zeroEmb

/-- One iteration of the triplet loop in `AddTokenAndTriplets`: the three
embedding errors are discarded; the MERGE run either fails as a whole or
upserts both endpoint tokens and the labeled edge (all first-write-wins). -/
def tripletStep (env : Env) (g : GraphStore) (t : Triplet) :
    GraphStore × Option String :=
  match env.tripletRunErr t with
  | some e => (g, some e)
  | none =>
    let g1 := mergeTokenNode g t.subject (embedOrZero env t.subject)
    let g2 := mergeTokenNode g1 t.object (embedOrZero env t.object)
    let g3 := mergePredicateEdge g2 (t.subject, t.predicate, t.object)
      (embedOrZero env t.predicate)
    (g3, none)

/-- The triplet loop of `AddTokenAndTriplets`: a run failure returns
immediately. -/
def tripletLoop (env : Env) :
    List Triplet → GraphStore → GraphStore × Option String
  | [], g => (g, none)
  | t :: ts, g =>
    match tripletStep env g t with
    | (g1, some e) => (g1, some e)
    | (g1, none) => tripletLoop env ts g1

/-- `AddTokenAndTriplets(content, embedding, docID)` from storage.go.  (The Go
function's `embedding` parameter is unused in its body and is omitted.)
Extract tokens and triplets, MERGE the Document node, then the token loop and
the triplet loop; any failure returns the error, keeping writes already
committed by earlier session runs. -/
def addTokenAndTriplets (env : Env) (content : String) (docID : Nat)
    (g : GraphStore) : GraphStore × Option String :=
  let p := extractTokensAndTriplets env content
  match env.docMergeErr with
  | some e => (g, some e)
  | none =>
    let g1 := mergeDocNode g docID content
    match tokenLoop env docID p.1 g1 with
    | (g2, some e) => (g2, some e)
    | (g2, none) => tripletLoop env p.2 g2

/-- `AddDocument(content, embedding)` from storage.go: INSERT into pg returning
the serial id; on success, and only when the Neo4j driver is configured, run
`AddTokenAndTriplets` with that id.  The pg row persists even when the graph
part fails. -/
def addDocument (env : Env) (content : String) (embedding : Emb)
    (s : SysState) : SysState × Option String :=
  match env.pgInsertErr content with
  | some e => (s, some e)
  | none =>
    let docID := s.vec.nextId
    let s1 : SysState :=
      { s with vec := { rows := s.vec.rows ++ [(docID, content, embedding)],
                        nextId := docID + 1 } }
    if s1.graphConfigured then
      match addTokenAndTriplets env content docID s1.graph with
      | (g1, err) => ({ s1 with graph := g1 }, err)
    else
      (s1, none)

/-- Squared L2 distance, the metric of the pg `vector_l2_ops` index used by
`ORDER BY embedding <-> $1`. -/
def sqDist (a b : Emb) : Int :=
  ((a.zip b).map (fun p => (p.1 - p.2) * (p.1 - p.2))).sum

/-- The pg nearest-neighbour `SELECT content ... ORDER BY ... LIMIT 1`:
content and distance of the closest row, earlier rows winning ties (the tie
order is unspecified in SQL; this fixes one determinization). `none` when the
table is empty, which surfaces as a query error in Go. -/
def nearestContent (q : Emb) : List (Nat × String × Emb) → Option (String × Int)
  | [] => none
  | (_, c, e) :: rest =>
    let d := sqDist q e
    match nearestContent q rest with
    | none => some (c, d)
    | some (c2, d2) => if d2 < d then some (c2, d2) else some (c, d)

/-- `SearchDocuments(queryEmbedding, useGraph)` from storage.go.  The result
pair is (returned context string, error).  The Neo4j vector-index search
itself is external (cosine index order inside the database); its outcome is
the `graphQueryErr` / `graphQueryResult` oracles. -/
def searchDocuments (env : Env) (q : Emb) (useGraph : Bool) (s : SysState) :
    String × Option String :=
  match env.pgSearchErr with
  | some e => ("", some ("failed to search documents in PostgreSQL: " ++ e))
  | none =>
    match nearestContent q s.vec.rows with
    | none => ("", some "failed to search documents in PostgreSQL: no rows in result set")
    | some pg =>
      if !useGraph || !s.graphConfigured then
        (pg.1, none)
      else
        match env.graphQueryErr with
        | some e => (pg.1, some ("failed to search documents in Neo4j: " ++ e))
        | none =>
          let neo4jContent := env.graphQueryResult
          if neo4jContent ≠ "" then
            (pg.1 ++ "\nGraph context: " ++ neo4jContent, none)
          else
            (pg.1, none)

/-- Go `strings.TrimSpace`: drop leading and trailing whitespace.  (Defined on
the character list so that it evaluates inside the kernel; Go counts bytes
where this counts characters, which agree on the ASCII inputs considered.) -/
def trimSpace (s : String) : String :=
  ⟨((s.data.dropWhile Char.isWhitespace).reverse.dropWhile
      Char.isWhitespace).reverse⟩

/-- HTTP responses the gin handlers produce (status plus JSON payload). -/
inductive HResp where
  | badRequest (msg : String)
  | serverError (msg : String) (details : List String)
  | ok (msg : String)
deriving DecidableEq

/-- Whether a response is the 200 success case. -/
def HResp.isOk : HResp → Bool
  | .ok _ => true
  | _ => false

/-- The loop of the `AddDocuments` handler, determinized to batch order: each
document is trimmed and length-checked; a too-short document answers 400 at
once, but goroutines already launched for earlier documents run to completion,
so the state reached so far is kept.  A valid document's pipeline (embed, then
`AddDocument`) runs, appending any error message to the accumulator.  After
the loop, any collected error answers 500 with the list, else 200. -/
def addDocumentsLoop (env : Env) :
    List String → SysState → List String → HResp × SysState
  | [], s, errs =>
    if errs = [] then (HResp.ok "Documents added successfully", s)
    else (HResp.serverError "Failed to process some documents" errs, s)
  | t :: ts, s, errs =>
    let trimmedText := trimSpace t
    if trimmedText.length < 5 then
      (HResp.badRequest "Document text must be at least 5 characters long", s)
    else
      match env.embed trimmedText with
      | .error e => addDocumentsLoop env ts s (errs ++ [e])
      | .ok emb =>
        match addDocument env trimmedText emb s with
        | (s1, some e) => addDocumentsLoop env ts s1 (errs ++ [e])
        | (s1, none) => addDocumentsLoop env ts s1 errs

/-- The `AddDocuments` gin handler on an already-bound request: the document
texts.  An empty list answers 400. -/
def addDocumentsHandler (env : Env) (texts : List String) (s : SysState) :
    HResp × SysState :=
  if texts = [] then
    (HResp.badRequest "Documents list cannot be empty", s)
  else
    addDocumentsLoop env texts s []

/-- The `Query` gin handler on an already-bound request.  The handler source
calls `SearchDocuments(embedding)` while the storage layer takes the
`useGraph` flag as well; the handler is modelled as forwarding the caller's
flag (the spec's `query(text, useGraph)` interface). -/
def queryHandler (env : Env) (queryText : String) (useGraph : Bool)
    (s : SysState) : HResp :=
  let trimmedQuery := trimSpace queryText
  if trimmedQuery.length < 3 then
    HResp.badRequest "Query must be at least 3 characters long"
  else
    match env.embed trimmedQuery with
    | .error e => HResp.serverError ("Failed to get query embedding: " ++ e) []
    | .ok emb =>
      match searchDocuments env emb useGraph s with
      | (_, some e) => HResp.serverError ("Failed to search documents: " ++ e) []
      | (ctx, none) =>
        match env.generate trimmedQuery ctx with
        | .error e => HResp.serverError ("Failed to generate response: " ++ e) []
        | .ok resp => HResp.ok resp

/-- The `UploadDocumentGin` handler after a successful multipart read: the raw
file content goes to `GetEmbedding` and `AddDocument` as-is — no trimming and
no minimum-length validation — and success reports only a message (no id).
When `AddDocument` fails after the pg insert, the inserted row persists. -/
def uploadDocumentGin (env : Env) (content : String) (s : SysState) :
    HResp × SysState :=
  match env.embed content with
  | .error e => (HResp.serverError ("Failed to generate embedding: " ++ e) [], s)
  | .ok emb =>
    match addDocument env content emb s with
    | (s1, some e) => (HResp.serverError ("Failed to save document: " ++ e) [], s1)
    | (s1, none) => (HResp.ok "Document uploaded successfully", s1)

/-- The empty Neo4j graph. -/
def emptyGraph : GraphStore :=
  { docs := [], tokens := [], containsEdges := [], predicateEdges := [] }

/-- Initial system state right after `init()`: empty documents table (SERIAL
ids start at 1), empty graph, graph backend configured. -/
def state0 : SysState :=
  { graphConfigured := true, vec := { rows := [], nextId := 1 },
    graph := emptyGraph }

/-- Initial state when NEO4J_URI is unset (nil driver). -/
def stateNoGraph : SysState := { state0 with graphConfigured := false }

/-- A state whose documents table holds one row with content "A". -/
def stateA : SysState :=
  { state0 with vec := { rows := [(1, "A", [0])], nextId := 2 } }

/-- A benign environment: every external call succeeds; embeddings are the
text length, extraction yields nothing, the graph search finds nothing, and
generation echoes the context. -/
def env0 : Env :=
  { embed := fun t => .ok [(t.length : Int)]
    extract := fun _ => some ([], [])
    pgInsertErr := fun _ => none
    pgSearchErr := none
    docMergeErr := none
    tokenRunErr := fun _ => none
    tripletRunErr := fun _ => none
    graphQueryErr := none
    graphQueryResult := ""
    generate := fun _ ctx => .ok ctx }

/-- `env0` but the graph similarity search finds content "B". -/
def envB : Env := { env0 with graphQueryResult := "B" }

/-- `env0` but the embedding gateway fails on the text "badbad". -/
def envC2 : Env :=
  { env0 with embed := fun t =>
      if t = "badbad" then .error "gateway down" else .ok [(t.length : Int)] }

/-- `env0` but the Neo4j search run fails. -/
def envC3 : Env := { env0 with graphQueryErr := some "connection refused" }

/-- `env0` but extraction yields tokens ["t1", "t2"] and the gateway fails on
"t1". -/
def envC7 : Env :=
  { env0 with
    extract := fun _ => some (["t1", "t2"], [])
    embed := fun t => if t = "t1" then .error "down" else .ok [7] }

/-- `env0` but every pg insert fails. -/
def envPgFail : Env := { env0 with pgInsertErr := fun _ => some "pg down" }

/-- A triplet whose subject embedding will fail in `envC8`. -/
def tC8 : Triplet := { subject := "s", predicate := "p", object := "o" }

/-- `env0` but extraction yields only the triplet `tC8` and the gateway fails
on its subject "s". -/
def envC8 : Env :=
  { env0 with
    extract := fun _ => some ([], [tC8])
    embed := fun t => if t = "s" then .error "down" else .ok [9] }

/-- States reachable through the exposed mutating handlers, from a fresh
startup state (with or without a graph backend), under arbitrary external
behaviour and inputs.  `Query` does not mutate state. -/
inductive Reach : SysState → Prop where
  | init (gc : Bool) :
      Reach { graphConfigured := gc, vec := { rows := [], nextId := 1 },
              graph := emptyGraph }
  | batch (env : Env) (texts : List String) (s : SysState) :
      Reach s → Reach (addDocumentsHandler env texts s).2
  | upload (env : Env) (content : String) (s : SysState) :
      Reach s → Reach (uploadDocumentGin env content s).2

/-- Every Document node in the graph has a vector-store row with the same id. -/
def graphDocsCovered (s : SysState) : Prop :=
  ∀ p ∈ s.graph.docs, ∃ q ∈ s.vec.rows, q.1 = p.1

/-! ## Helper lemmas about the graph-store operations -/

theorem lookupToken_congr (g g' : GraphStore) (h : g'.tokens = g.tokens)
    (name : String) : lookupToken g' name = lookupToken g name := by
  unfold lookupToken; rw [h]

theorem linkContains_tokens (g : GraphStore) (n : String) (d : Nat) :
    (linkContains g n d).tokens = g.tokens := by
  unfold linkContains
  split
  · split <;> rfl
  · rfl

theorem mergePredicateEdge_tokens (g : GraphStore)
    (key : String × String × String) (e : Emb) :
    (mergePredicateEdge g key e).tokens = g.tokens := by
  unfold mergePredicateEdge; split <;> rfl

theorem mergeTokenNode_predicateEdges (g : GraphStore) (n : String) (e : Emb) :
    (mergeTokenNode g n e).predicateEdges = g.predicateEdges := by
  unfold mergeTokenNode; split <;> rfl

theorem lookupToken_merge_self (g : GraphStore) (name : String) (e : Emb)
    (h : lookupToken g name = none) :
    lookupToken (mergeTokenNode g name e) name = some e := by
  have hf : g.tokens.find? (fun p => p.1 = name) = none :=
    Option.map_eq_none'.mp h
  unfold mergeTokenNode
  rw [h]
  unfold lookupToken
  simp only []
  rw [List.find?_append, hf]
  simp [List.find?]

theorem lookupToken_merge_preserved (g : GraphStore) (name n2 : String)
    (e0 e2 : Emb) (h : lookupToken g name = some e0) :
    lookupToken (mergeTokenNode g n2 e2) name = some e0 := by
  unfold mergeTokenNode
  cases hl : lookupToken g n2 with
  | some _ => exact h
  | none =>
    obtain ⟨pr, hpr, hpe⟩ := Option.map_eq_some'.mp h
    unfold lookupToken
    simp only []
    rw [List.find?_append, hpr]
    simp [hpe]

theorem lookupPredicate_congr (g g' : GraphStore)
    (h : g'.predicateEdges = g.predicateEdges) (key : String × String × String) :
    lookupPredicate g' key = lookupPredicate g key := by
  unfold lookupPredicate; rw [h]

theorem lookupPredicate_merge_self (g : GraphStore)
    (key : String × String × String) (e : Emb)
    (h : lookupPredicate g key = none) :
    lookupPredicate (mergePredicateEdge g key e) key = some e := by
  have hf : g.predicateEdges.find? (fun p => p.1 = key) = none :=
    Option.map_eq_none'.mp h
  unfold mergePredicateEdge
  rw [h]
  unfold lookupPredicate
  simp only []
  rw [List.find?_append, hf]
  simp [List.find?]

/-! ## Claim theorems -/

/-- Claim C1: when the vector search yields content `a` and the graph search
yields a non-empty `graphQueryResult`, `SearchDocuments` returns `a`, then the
separator `"\nGraph context: "`, then the graph content, with no error; when
the graph finds nothing, or graph expansion is not requested, the context is
exactly `a`. -/
theorem searchDocuments_merge_policy (env : Env) (q : Emb) (s : SysState)
    (a : String) (d : Int)
    (hpg : env.pgSearchErr = none)
    (hnear : nearestContent q s.vec.rows = some (a, d))
    (hgc : s.graphConfigured = true)
    (hge : env.graphQueryErr = none) :
    (env.graphQueryResult ≠ "" →
      searchDocuments env q true s
        = (a ++ "\nGraph context: " ++ env.graphQueryResult, none))
    ∧ (env.graphQueryResult = "" →
      searchDocuments env q true s = (a, none))
    ∧ searchDocuments env q false s = (a, none) := by
  unfold searchDocuments
  rw [hpg, hnear, hgc, hge]
  refine ⟨fun hb => ?_, fun hb => ?_, ?_⟩
  · simp [hb]
  · simp [hb]
  · simp

/-- Witness for C1: in a one-row store with content "A" and a graph hit "B",
the merged context is literally "A\nGraph context: B"; with no graph hit, or
with graph expansion off, it is "A". -/
theorem searchDocuments_merge_policy_witness :
    searchDocuments envB [0] true stateA = ("A" ++ "\nGraph context: " ++ "B", none)
    ∧ searchDocuments env0 [0] true stateA = ("A", none)
    ∧ searchDocuments envB [0] false stateA = ("A", none) :=
  ⟨(searchDocuments_merge_policy envB [0] stateA "A" 0 rfl rfl rfl rfl).1
      (by decide),
   (searchDocuments_merge_policy env0 [0] stateA "A" 0 rfl rfl rfl rfl).2.1 rfl,
   (searchDocuments_merge_policy envB [0] stateA "A" 0 rfl rfl rfl rfl).2.2⟩

/-- Claim C5: upserting an absent token with embedding `e1` and then upserting
the same name again — directly, via the token-loop step (with any embedding
the gateway returns), or via the predicate-edge step that upserts endpoint
tokens — leaves the stored embedding at `e1` (first-write-wins). -/
theorem upsertToken_first_write_wins (g : GraphStore) (name : String) (e1 : Emb)
    (h : lookupToken g name = none) :
    (∀ e2 : Emb,
      lookupToken (mergeTokenNode (mergeTokenNode g name e1) name e2) name = some e1)
    ∧ (∀ (env : Env) (docID : Nat),
      lookupToken ((tokenStep env docID (mergeTokenNode g name e1) name).1) name = some e1)
    ∧ (∀ (env : Env) (t : Triplet),
      lookupToken ((tripletStep env (mergeTokenNode g name e1) t).1) name = some e1) := by
  have h1 : lookupToken (mergeTokenNode g name e1) name = some e1 :=
    lookupToken_merge_self g name e1 h
  refine ⟨fun e2 => lookupToken_merge_preserved _ name name e1 e2 h1, ?_, ?_⟩
  · intro env docID
    unfold tokenStep
    cases hemb : env.embed name with
    | error e => exact h1
    | ok temb =>
      cases hrun : env.tokenRunErr name with
      | some e => exact h1
      | none =>
        simp only []
        rw [lookupToken_congr _ _ (linkContains_tokens _ name docID) name]
        exact lookupToken_merge_preserved _ name name e1 temb h1
  · intro env t
    unfold tripletStep
    cases hrun : env.tripletRunErr t with
    | some e => exact h1
    | none =>
      simp only []
      rw [lookupToken_congr _ _ (mergePredicateEdge_tokens _ _ _) name]
      exact lookupToken_merge_preserved _ name t.object e1 _
        (lookupToken_merge_preserved _ name t.subject e1 _ h1)

/-- Witness for C5: upserting "tok" with [1] and again with [2], directly or
through a predicate edge whose subject is "tok", leaves [1] stored. -/
theorem upsertToken_first_write_wins_witness :
    lookupToken (mergeTokenNode (mergeTokenNode emptyGraph "tok" [1]) "tok" [2]) "tok"
      = some [1]
    ∧ lookupToken ((tripletStep env0 (mergeTokenNode emptyGraph "tok" [1])
        { subject := "tok", predicate := "rel", object := "obj" }).1) "tok"
      = some [1] :=
  ⟨(upsertToken_first_write_wins emptyGraph "tok" [1] rfl).1 [2],
   (upsertToken_first_write_wins emptyGraph "tok" [1] rfl).2.2 env0
     { subject := "tok", predicate := "rel", object := "obj" }⟩

/-- Claim C6: with no graph backend configured, `SearchDocuments` with
`useGraph = true` equals `SearchDocuments` with `useGraph = false` (and hence
the query handler's results coincide), and `AddDocument` never touches the
graph. -/
theorem no_graph_backend (env : Env) (text c : String) (e : Emb) (s : SysState)
    (h : s.graphConfigured = false) :
    (∀ q : Emb, searchDocuments env q true s = searchDocuments env q false s)
    ∧ queryHandler env text true s = queryHandler env text false s
    ∧ (addDocument env c e s).1.graph = s.graph := by
  have hs : ∀ q : Emb,
      searchDocuments env q true s = searchDocuments env q false s := by
    intro q
    unfold searchDocuments
    cases env.pgSearchErr with
    | some e2 => rfl
    | none =>
      cases nearestContent q s.vec.rows with
      | none => rfl
      | some pg => simp [h]
  refine ⟨hs, ?_, ?_⟩
  · unfold queryHandler
    simp only []
    split
    · rfl
    · cases env.embed (trimSpace text) with
      | error e2 => rfl
      | ok emb =>
        simp only []
        rw [hs emb]
  · unfold addDocument
    cases env.pgInsertErr c with
    | some e2 => rfl
    | none => simp [h]

/-- Witness for C6: from the graphless startup state, graph expansion on and
off agree, and ingesting "hello" leaves the graph untouched. -/
theorem no_graph_backend_witness :
    searchDocuments env0 [5] true stateNoGraph = searchDocuments env0 [5] false stateNoGraph
    ∧ queryHandler env0 "abcd" true stateNoGraph = queryHandler env0 "abcd" false stateNoGraph
    ∧ (addDocument env0 "hello" [5] stateNoGraph).1.graph = stateNoGraph.graph :=
  ⟨(no_graph_backend env0 "abcd" "hello" [5] stateNoGraph rfl).1 [5],
   (no_graph_backend env0 "abcd" "hello" [5] stateNoGraph rfl).2.1,
   (no_graph_backend env0 "abcd" "hello" [5] stateNoGraph rfl).2.2⟩

/-- Counterexample to C3 as stated: with one stored row "A" and a failing
Neo4j search run, `SearchDocuments` returns the vector content together with a
non-nil error, and the Query handler therefore fails the request with a 500 —
not a successful vector-only result. -/
theorem graph_failure_not_nonfatal_counterexample :
    (searchDocuments envC3 [0] true stateA).1 = "A"
    ∧ (searchDocuments envC3 [0] true stateA).2
        = some "failed to search documents in Neo4j: connection refused"
    ∧ queryHandler envC3 "abcd" true stateA
        = HResp.serverError
            "Failed to search documents: failed to search documents in Neo4j: connection refused"
            [] :=
  ⟨rfl, rfl, rfl⟩

/-- Claim C3 amended: when the vector lookup succeeds and the graph lookup
fails, `SearchDocuments` returns the vector-only content but paired with a
non-nil error, and the Query handler treats that error as fatal, answering a
500 instead of a successful result. -/
theorem graph_failure_returns_error (env : Env) (q : Emb) (s : SysState)
    (a : String) (d : Int) (e : String)
    (hpg : env.pgSearchErr = none)
    (hnear : nearestContent q s.vec.rows = some (a, d))
    (hgc : s.graphConfigured = true)
    (hge : env.graphQueryErr = some e) :
    searchDocuments env q true s
      = (a, some ("failed to search documents in Neo4j: " ++ e))
    ∧ ∀ text : String, ¬ (trimSpace text).length < 3 → env.embed (trimSpace text) = .ok q →
        queryHandler env text true s
          = HResp.serverError
              ("Failed to search documents: failed to search documents in Neo4j: " ++ e)
              [] := by
  have h1 : searchDocuments env q true s
      = (a, some ("failed to search documents in Neo4j: " ++ e)) := by
    unfold searchDocuments
    rw [hpg, hnear, hgc, hge]
    simp
  refine ⟨h1, ?_⟩
  intro text hlen hembed
  unfold queryHandler
  simp only []
  rw [if_neg hlen, hembed]
  simp only []
  rw [h1]
  rfl

/-- Witness for the amended C3 at a concrete store and query. -/
theorem graph_failure_returns_error_witness :
    searchDocuments envC3 [4] true stateA
      = ("A", some ("failed to search documents in Neo4j: " ++ "connection refused"))
    ∧ queryHandler envC3 "abcd" true stateA
      = HResp.serverError
          ("Failed to search documents: failed to search documents in Neo4j: "
            ++ "connection refused") [] :=
  ⟨(graph_failure_returns_error envC3 [4] stateA "A" 16 "connection refused"
      rfl rfl rfl rfl).1,
   (graph_failure_returns_error envC3 [4] stateA "A" 16 "connection refused"
      rfl rfl rfl rfl).2 "abcd" (by decide) rfl⟩

/-- Counterexample to C4 as stated: in the batch ["hello world", "ab"] the
second document is too short, the batch is rejected with the validation error,
and yet a store write for the batch has already occurred — the first document
sits in the vector store. -/
theorem validation_midbatch_counterexample :
    (addDocumentsHandler env0 ["hello world", "ab"] stateNoGraph).1
      = HResp.badRequest "Document text must be at least 5 characters long"
    ∧ (addDocumentsHandler env0 ["hello world", "ab"] stateNoGraph).2.vec.rows
      = [(1, "hello world", [11])] :=
  ⟨rfl, rfl⟩

/-- Claim C4 amended: a too-short document rejects the batch, and when it is
the first document of the batch no store write or external call at all has
happened (the state is returned unchanged, for every environment); documents
before a later invalid one have however already been dispatched.  A query is
rejected when its trimmed length is below 3 (not 5), again before any
external call. -/
theorem validation_short_circuit (env : Env) (t : String) (ts : List String)
    (q : String) (useGraph : Bool) (s : SysState)
    (hd : (trimSpace t).length < 5) (hq : (trimSpace q).length < 3) :
    addDocumentsHandler env (t :: ts) s
      = (HResp.badRequest "Document text must be at least 5 characters long", s)
    ∧ queryHandler env q useGraph s
      = HResp.badRequest "Query must be at least 3 characters long" := by
  constructor
  · unfold addDocumentsHandler
    rw [if_neg (by simp)]
    unfold addDocumentsLoop
    simp only []
    rw [if_pos hd]
  · unfold queryHandler
    simp only []
    rw [if_pos hq]

/-- Witness for the amended C4: the batch ["ab"] and the query "ab" are both
rejected with the state untouched. -/
theorem validation_short_circuit_witness :
    addDocumentsHandler env0 ["ab"] state0
      = (HResp.badRequest "Document text must be at least 5 characters long", state0)
    ∧ queryHandler env0 "ab" true state0
      = HResp.badRequest "Query must be at least 3 characters long" :=
  validation_short_circuit env0 "ab" [] "ab" true state0 (by decide) (by decide)

/-- Counterexample to C7 as stated: extraction yields tokens ["t1", "t2"],
the gateway fails on "t1", and `AddTokenAndTriplets` stops at once: the error
is returned, "t2" is never upserted and no CONTAINS edge is written —
processing of the remaining tokens does not continue. -/
theorem token_failure_continue_counterexample :
    (addTokenAndTriplets envC7 "doc one" 1 emptyGraph).2 = some "down"
    ∧ lookupToken (addTokenAndTriplets envC7 "doc one" 1 emptyGraph).1 "t2" = none
    ∧ (addTokenAndTriplets envC7 "doc one" 1 emptyGraph).1.containsEdges = [] :=
  ⟨rfl, rfl, rfl⟩

/-- Claim C7 amended: a failure on a token's embedding aborts the token loop
for that document — only the Document node merge survives and the error is
returned — and the error is recorded as that document's per-document error by
`AddDocument`. -/
theorem token_failure_aborts (env : Env) (content : String) (t : String)
    (ts : List String) (trs : List Triplet) (e : String)
    (hx : extractTokensAndTriplets env content = (t :: ts, trs))
    (hd : env.docMergeErr = none)
    (he : env.embed t = .error e) :
    (∀ (docID : Nat) (g : GraphStore),
      addTokenAndTriplets env content docID g
        = (mergeDocNode g docID content, some e))
    ∧ (∀ (emb : Emb) (s : SysState), s.graphConfigured = true →
        env.pgInsertErr content = none →
        (addDocument env content emb s).2 = some e) := by
  have h1 : ∀ (docID : Nat) (g : GraphStore),
      addTokenAndTriplets env content docID g
        = (mergeDocNode g docID content, some e) := by
    intro docID g
    unfold addTokenAndTriplets
    rw [hd]
    simp only [hx, tokenLoop, tokenStep, he]
  refine ⟨h1, ?_⟩
  intro emb s hgc hins
  unfold addDocument
  rw [hins]
  simp [hgc, h1]

/-- Witness for the amended C7 at a concrete document and state. -/
theorem token_failure_aborts_witness :
    addTokenAndTriplets envC7 "doc two" 1 emptyGraph
      = (mergeDocNode emptyGraph 1 "doc two", some "down")
    ∧ (addDocument envC7 "doc two" [7] state0).2 = some "down" :=
  ⟨(token_failure_aborts envC7 "doc two" "t1" ["t2"] [] "down" rfl rfl rfl).1
      1 emptyGraph,
   (token_failure_aborts envC7 "doc two" "t1" ["t2"] [] "down" rfl rfl rfl).2
      [7] state0 rfl rfl⟩

/-- Claim C8: when the embedding call for a triplet field (here the subject)
fails, the failure is discarded: the triplet step reports no error, the
PREDICATE edge is still upserted, a freshly created subject token carries the
zero-value embedding, and `AddTokenAndTriplets` on a document reducing to that
triplet succeeds. -/
theorem triplet_zero_embedding (env : Env) (t : Triplet) (g : GraphStore)
    (e : String)
    (hrun : env.tripletRunErr t = none)
    (hs : env.embed t.subject = .error e)
    (habs : lookupPredicate g (t.subject, t.predicate, t.object) = none) :
    (tripletStep env g t).2 = none
    ∧ lookupPredicate (tripletStep env g t).1 (t.subject, t.predicate, t.object)
        = some (embedOrZero env t.predicate)
    ∧ (lookupToken g t.subject = none →
        lookupToken (tripletStep env g t).1 t.subject = some zeroEmb)
    ∧ (∀ (content : String) (docID : Nat) (g0 : GraphStore),
        env.extract content = some ([], [t]) → env.docMergeErr = none →
        (addTokenAndTriplets env content docID g0).2 = none) := by
  have hz : embedOrZero env t.subject = zeroEmb := by
    unfold embedOrZero; rw [hs]
  have hstep : tripletStep env g t
      = (mergePredicateEdge
          (mergeTokenNode (mergeTokenNode g t.subject (embedOrZero env t.subject))
            t.object (embedOrZero env t.object))
          (t.subject, t.predicate, t.object) (embedOrZero env t.predicate),
         none) := by
    unfold tripletStep
    rw [hrun]
  refine ⟨by rw [hstep], ?_, ?_, ?_⟩
  · rw [hstep]
    simp only []
    have h2 : lookupPredicate
        (mergeTokenNode (mergeTokenNode g t.subject (embedOrZero env t.subject))
          t.object (embedOrZero env t.object))
        (t.subject, t.predicate, t.object) = none := by
      rw [lookupPredicate_congr _ _ (mergeTokenNode_predicateEdges _ _ _) _,
        lookupPredicate_congr _ _ (mergeTokenNode_predicateEdges _ _ _) _]
      exact habs
    exact lookupPredicate_merge_self _ _ _ h2
  · intro h0
    rw [hstep]
    simp only []
    rw [lookupToken_congr _ _ (mergePredicateEdge_tokens _ _ _) _]
    refine lookupToken_merge_preserved _ _ _ _ _ ?_
    rw [← hz]
    exact lookupToken_merge_self g t.subject _ h0
  · intro content docID g0 hx0 hd0
    unfold addTokenAndTriplets extractTokensAndTriplets
    rw [hx0, hd0]
    obtain ⟨gg, herr⟩ :
        ∃ gg, tripletStep env (mergeDocNode g0 docID content) t = (gg, none) := by
      unfold tripletStep
      rw [hrun]
      exact ⟨_, rfl⟩
    simp only [tokenLoop, tripletLoop, herr]

/-- Witness for C8 at a concrete triplet whose subject embedding fails. -/
theorem triplet_zero_embedding_witness :
    (tripletStep envC8 emptyGraph tC8).2 = none
    ∧ lookupPredicate (tripletStep envC8 emptyGraph tC8).1 ("s", "p", "o")
        = some (embedOrZero envC8 "p")
    ∧ lookupToken (tripletStep envC8 emptyGraph tC8).1 "s" = some zeroEmb
    ∧ (addTokenAndTriplets envC8 "some doc" 3 emptyGraph).2 = none :=
  ⟨(triplet_zero_embedding envC8 tC8 emptyGraph "down" rfl rfl rfl).1,
   (triplet_zero_embedding envC8 tC8 emptyGraph "down" rfl rfl rfl).2.1,
   (triplet_zero_embedding envC8 tC8 emptyGraph "down" rfl rfl rfl).2.2.1 rfl,
   (triplet_zero_embedding envC8 tC8 emptyGraph "down" rfl rfl rfl).2.2.2
      "some doc" 3 emptyGraph rfl rfl⟩

/-- On a graphless state, `AddDocument` either fails leaving the state
unchanged (pg insert error) or appends exactly one row. -/
theorem addDocument_noGraph (env : Env) (c : String) (e : Emb) (s : SysState)
    (hg : s.graphConfigured = false) :
    (∃ err, addDocument env c e s = (s, some err))
    ∨ addDocument env c e s
        = ({ s with vec := { rows := s.vec.rows ++ [(s.vec.nextId, c, e)],
                             nextId := s.vec.nextId + 1 } }, none) := by
  unfold addDocument
  cases env.pgInsertErr c with
  | some e2 => exact .inl ⟨e2, rfl⟩
  | none =>
    right
    simp [hg]

/-- Behaviour of the batch loop on all-valid documents over a graphless state:
some list of per-document errors is collected; the response is success exactly
when it is empty and the 500 with that list otherwise; each document either
added a row or contributed an error. -/
theorem addDocumentsLoop_spec (env : Env) :
    ∀ (ts : List String) (s : SysState) (acc : List String),
      (∀ t ∈ ts, ¬ (trimSpace t).length < 5) → s.graphConfigured = false →
      ∃ (errs : List String) (s2 : SysState),
        addDocumentsLoop env ts s acc
          = ((if acc ++ errs = [] then HResp.ok "Documents added successfully"
              else HResp.serverError "Failed to process some documents"
                (acc ++ errs)), s2)
        ∧ errs.length ≤ ts.length
        ∧ s2.vec.rows.length + errs.length = s.vec.rows.length + ts.length
        ∧ s2.graphConfigured = false := by
  intro ts
  induction ts with
  | nil =>
    intro s acc hval hg
    refine ⟨[], s, ?_, by simp, by simp, hg⟩
    unfold addDocumentsLoop
    split <;> rename_i h <;> simp [h]
  | cons t ts ih =>
    intro s acc hval hg
    have ht : ¬ (trimSpace t).length < 5 := hval t (List.mem_cons_self t ts)
    have hts : ∀ x ∈ ts, ¬ (trimSpace x).length < 5 :=
      fun x hx => hval x (List.mem_cons_of_mem t hx)
    unfold addDocumentsLoop
    simp only []
    rw [if_neg ht]
    cases env.embed (trimSpace t) with
    | error e =>
      obtain ⟨errs, s2, heq, hlen, hrows, hgc⟩ := ih s (acc ++ [e]) hts hg
      refine ⟨e :: errs, s2, ?_, by simp; omega, by simp at hrows ⊢; omega, hgc⟩
      simp only []
      rw [heq]
      simp
    | ok emb =>
      simp only []
      rcases addDocument_noGraph env (trimSpace t) emb s hg with ⟨err, hErr⟩ | hOk
      · rw [hErr]
        obtain ⟨errs, s2, heq, hlen, hrows, hgc⟩ := ih s (acc ++ [err]) hts hg
        refine ⟨err :: errs, s2, ?_, by simp; omega, by simp at hrows ⊢; omega, hgc⟩
        simp only []
        rw [heq]
        simp
      · rw [hOk]
        obtain ⟨errs, s2, heq, hlen, hrows, hgc⟩ :=
          ih { s with vec := { rows := s.vec.rows ++ [(s.vec.nextId, trimSpace t, emb)],
                               nextId := s.vec.nextId + 1 } } acc hts (by simpa using hg)
        refine ⟨errs, s2, ?_, by simp; omega, ?_, hgc⟩
        · simp only []
          exact heq
        · simp at hrows ⊢
          omega

/-- Counterexample to C2 as stated: in the batch ["hello you", "badbad"] only
the second document fails (embedding gateway down), the first is stored — yet
the handler reports overall failure (a 500), not success with an error list.
-/
theorem partial_failure_reported_as_failure_counterexample :
    (addDocumentsHandler envC2 ["hello you", "badbad"] stateNoGraph).1
      = HResp.serverError "Failed to process some documents" ["gateway down"]
    ∧ (addDocumentsHandler envC2 ["hello you", "badbad"] stateNoGraph).2.vec.rows
      = [(1, "hello you", [9])] :=
  ⟨rfl, rfl⟩

/-- Claim C2 amended: for an all-valid batch over a graphless state the
handler answers success exactly when no document failed, and the overall 500
failure whenever at least one document failed (not only when all did),
carrying the per-document error list; the number of rows added is N minus the
number of failed documents. -/
theorem batch_overall_status (env : Env) (texts : List String) (s : SysState)
    (hval : ∀ t ∈ texts, ¬ (trimSpace t).length < 5)
    (hne : texts ≠ [])
    (hg : s.graphConfigured = false) :
    ∃ errs : List String,
      errs.length ≤ texts.length
      ∧ (addDocumentsHandler env texts s).1
          = (if errs = [] then HResp.ok "Documents added successfully"
             else HResp.serverError "Failed to process some documents" errs)
      ∧ (addDocumentsHandler env texts s).2.vec.rows.length + errs.length
          = s.vec.rows.length + texts.length := by
  obtain ⟨errs, s2, heq, hlen, hrows, _⟩ :=
    addDocumentsLoop_spec env texts s [] hval hg
  have hh : addDocumentsHandler env texts s
      = ((if errs = [] then HResp.ok "Documents added successfully"
          else HResp.serverError "Failed to process some documents" errs), s2) := by
    unfold addDocumentsHandler
    rw [if_neg hne, heq]
    simp
  exact ⟨errs, hlen, by rw [hh], by rw [hh]; exact hrows⟩

/-- Witness for the amended C2 on the two-document batch with one gateway
failure. -/
theorem batch_overall_status_witness :
    ∃ errs : List String,
      errs.length ≤ 2
      ∧ (addDocumentsHandler envC2 ["hello you", "badbad"] stateNoGraph).1
          = (if errs = [] then HResp.ok "Documents added successfully"
             else HResp.serverError "Failed to process some documents" errs)
      ∧ (addDocumentsHandler envC2 ["hello you", "badbad"] stateNoGraph).2.vec.rows.length
          + errs.length = stateNoGraph.vec.rows.length + 2 :=
  batch_overall_status envC2 ["hello you", "badbad"] stateNoGraph
    (by decide) (by decide) rfl

/-! ## Preservation lemmas for the graph-document invariant -/

theorem mergeTokenNode_docs (g : GraphStore) (n : String) (e : Emb) :
    (mergeTokenNode g n e).docs = g.docs := by
  unfold mergeTokenNode; split <;> rfl

theorem linkContains_docs (g : GraphStore) (n : String) (d : Nat) :
    (linkContains g n d).docs = g.docs := by
  unfold linkContains
  split
  · split <;> rfl
  · rfl

theorem mergePredicateEdge_docs (g : GraphStore)
    (k : String × String × String) (e : Emb) :
    (mergePredicateEdge g k e).docs = g.docs := by
  unfold mergePredicateEdge; split <;> rfl

theorem tokenStep_docs (env : Env) (docID : Nat) (g : GraphStore) (t : String) :
    ((tokenStep env docID g t).1).docs = g.docs := by
  unfold tokenStep
  cases env.embed t with
  | error e => rfl
  | ok temb =>
    cases env.tokenRunErr t with
    | some e => rfl
    | none =>
      simp only []
      rw [linkContains_docs, mergeTokenNode_docs]

theorem tokenLoop_docs (env : Env) (docID : Nat) :
    ∀ (ts : List String) (g : GraphStore),
      ((tokenLoop env docID ts g).1).docs = g.docs := by
  intro ts
  induction ts with
  | nil => intro g; rfl
  | cons t ts ih =>
    intro g
    have hd : ((tokenStep env docID g t).1).docs = g.docs :=
      tokenStep_docs env docID g t
    unfold tokenLoop
    rcases hstep : tokenStep env docID g t with ⟨g1, err⟩
    rw [hstep] at hd
    cases err with
    | some e => exact hd
    | none =>
      simp only []
      rw [ih g1]
      exact hd

theorem tripletStep_docs (env : Env) (g : GraphStore) (t : Triplet) :
    ((tripletStep env g t).1).docs = g.docs := by
  unfold tripletStep
  cases env.tripletRunErr t with
  | some e => rfl
  | none =>
    simp only []
    rw [mergePredicateEdge_docs, mergeTokenNode_docs, mergeTokenNode_docs]

theorem tripletLoop_docs (env : Env) :
    ∀ (ts : List Triplet) (g : GraphStore),
      ((tripletLoop env ts g).1).docs = g.docs := by
  intro ts
  induction ts with
  | nil => intro g; rfl
  | cons t ts ih =>
    intro g
    have hd : ((tripletStep env g t).1).docs = g.docs := tripletStep_docs env g t
    unfold tripletLoop
    rcases hstep : tripletStep env g t with ⟨g1, err⟩
    rw [hstep] at hd
    cases err with
    | some e => exact hd
    | none =>
      simp only []
      rw [ih g1]
      exact hd

theorem addTokenAndTriplets_docs (env : Env) (content : String) (docID : Nat)
    (g : GraphStore) :
    ∀ p ∈ ((addTokenAndTriplets env content docID g).1).docs,
      p ∈ g.docs ∨ p = (docID, content) := by
  have hmerge : ∀ p ∈ (mergeDocNode g docID content).docs,
      p ∈ g.docs ∨ p = (docID, content) := by
    unfold mergeDocNode
    split
    · exact fun p hp => .inl hp
    · intro p hp
      rcases List.mem_append.mp hp with h | h
      · exact .inl h
      · right; simpa using h
  unfold addTokenAndTriplets
  cases env.docMergeErr with
  | some e => exact fun p hp => .inl hp
  | none =>
    simp only []
    rcases hloop : tokenLoop env docID (extractTokensAndTriplets env content).1
        (mergeDocNode g docID content) with ⟨g2, err⟩
    have h2 : g2.docs = (mergeDocNode g docID content).docs := by
      have := tokenLoop_docs env docID (extractTokensAndTriplets env content).1
        (mergeDocNode g docID content)
      rw [hloop] at this
      exact this
    cases err with
    | some e =>
      intro p hp
      rw [h2] at hp
      exact hmerge p hp
    | none =>
      simp only []
      rcases htl : tripletLoop env (extractTokensAndTriplets env content).2 g2
        with ⟨g3, err2⟩
      have h3 : g3.docs = g2.docs := by
        have := tripletLoop_docs env (extractTokensAndTriplets env content).2 g2
        rw [htl] at this
        exact this
      intro p hp
      rw [h3, h2] at hp
      exact hmerge p hp

theorem addDocument_covered (env : Env) (c : String) (e : Emb) (s : SysState)
    (h : graphDocsCovered s) : graphDocsCovered (addDocument env c e s).1 := by
  unfold addDocument
  cases env.pgInsertErr c with
  | some e2 => exact h
  | none =>
    simp only []
    by_cases hgc : s.graphConfigured = true
    · rw [if_pos hgc]
      rcases hadd : addTokenAndTriplets env c s.vec.nextId s.graph with ⟨g1, err⟩
      have hdocs : ∀ p ∈ g1.docs, p ∈ s.graph.docs ∨ p = (s.vec.nextId, c) := by
        have := addTokenAndTriplets_docs env c s.vec.nextId s.graph
        rw [hadd] at this
        exact this
      intro p hp
      rcases hdocs p hp with hin | hnew
      · obtain ⟨q, hq, hid⟩ := h p hin
        exact ⟨q, List.mem_append_left _ hq, hid⟩
      · refine ⟨(s.vec.nextId, c, e), List.mem_append_right _ (by simp), ?_⟩
        rw [hnew]
    · rw [if_neg hgc]
      intro p hp
      obtain ⟨q, hq, hid⟩ := h p hp
      exact ⟨q, List.mem_append_left _ hq, hid⟩

theorem addDocumentsLoop_covered (env : Env) :
    ∀ (ts : List String) (s : SysState) (acc : List String),
      graphDocsCovered s → graphDocsCovered (addDocumentsLoop env ts s acc).2 := by
  intro ts
  induction ts with
  | nil =>
    intro s acc h
    unfold addDocumentsLoop
    split <;> exact h
  | cons t ts ih =>
    intro s acc h
    unfold addDocumentsLoop
    simp only []
    split
    · exact h
    · cases env.embed (trimSpace t) with
      | error e => exact ih s (acc ++ [e]) h
      | ok emb =>
        simp only []
        rcases hadd : addDocument env (trimSpace t) emb s with ⟨s1, err⟩
        have h1 : graphDocsCovered s1 := by
          have := addDocument_covered env (trimSpace t) emb s h
          rw [hadd] at this
          exact this
        cases err with
        | some e => exact ih s1 (acc ++ [e]) h1
        | none => exact ih s1 acc h1

theorem uploadDocumentGin_covered (env : Env) (content : String) (s : SysState)
    (h : graphDocsCovered s) : graphDocsCovered (uploadDocumentGin env content s).2 := by
  unfold uploadDocumentGin
  cases env.embed content with
  | error e => exact h
  | ok emb =>
    simp only []
    rcases hadd : addDocument env content emb s with ⟨s1, err⟩
    have h1 : graphDocsCovered s1 := by
      have := addDocument_covered env content emb s h
      rw [hadd] at this
      exact this
    cases err with
    | some e => exact h1
    | none => exact h1

/-- Claim C9: in every reachable state, every Document node in the graph store
has a vector-store row with the same id; and when the vector insert fails, no
graph write happens at all (the graph is untouched), reflecting that graph
writes run only after the insert returned the id. -/
theorem graph_docs_have_vector_rows :
    (∀ s : SysState, Reach s → graphDocsCovered s)
    ∧ (∀ (env : Env) (c : String) (e : Emb) (s : SysState) (err : String),
        env.pgInsertErr c = some err → (addDocument env c e s).1.graph = s.graph) := by
  constructor
  · intro s hs
    induction hs with
    | init gc => intro p hp; simp [emptyGraph] at hp
    | batch env texts s hs ih =>
      unfold addDocumentsHandler
      split
      · exact ih
      · exact addDocumentsLoop_covered env texts s [] ih
    | upload env content s hs ih =>
      exact uploadDocumentGin_covered env content s ih
  · intro env c e s err hins
    unfold addDocument
    rw [hins]

/-- Witness for C9: a state reached by one successful batch ingestion
satisfies the invariant, and a failing pg insert leaves the graph unchanged. -/
theorem graph_docs_have_vector_rows_witness :
    graphDocsCovered (addDocumentsHandler env0 ["hello docs"] state0).2
    ∧ (addDocument envPgFail "hello" [5] state0).1.graph = state0.graph :=
  ⟨graph_docs_have_vector_rows.1 _
      (Reach.batch env0 ["hello docs"] state0 (Reach.init true)),
   graph_docs_have_vector_rows.2 envPgFail "hello" [5] state0 "pg down" rfl⟩

/-- Counterexample to C10 as stated: the raw content "ab" is accepted by the
upload path (stored as-is, a success message with no id), while `addDocuments`
on the same single document rejects it as too short and stores nothing — the
two paths do not behave the same. -/
theorem upload_no_validation_counterexample :
    (uploadDocumentGin env0 "ab" stateNoGraph).1
      = HResp.ok "Document uploaded successfully"
    ∧ (uploadDocumentGin env0 "ab" stateNoGraph).2.vec.rows = [(1, "ab", [2])]
    ∧ (addDocumentsHandler env0 ["ab"] stateNoGraph).1
        = HResp.badRequest "Document text must be at least 5 characters long"
    ∧ (addDocumentsHandler env0 ["ab"] stateNoGraph).2.vec.rows = [] :=
  ⟨rfl, rfl, rfl, rfl⟩

/-- Claim C10 amended: the upload path performs no trimming and no
minimum-length validation and reports only a success message, not the assigned
id; on content that is already trimmed and at least 5 characters long it does
agree with `addDocuments` on that single document — same final store state and
success exactly when the batch reports success. -/
theorem upload_matches_batch_on_valid (env : Env) (c : String) (s : SysState)
    (hc : trimSpace c = c) (hl : ¬ c.length < 5) :
    (uploadDocumentGin env c s).2 = (addDocumentsHandler env [c] s).2
    ∧ (uploadDocumentGin env c s).1.isOk = (addDocumentsHandler env [c] s).1.isOk := by
  have hh : addDocumentsHandler env [c] s = addDocumentsLoop env [c] s [] := by
    unfold addDocumentsHandler
    rw [if_neg (by simp)]
  have hloop : addDocumentsLoop env [c] s []
      = match env.embed c with
        | .error e => (HResp.serverError "Failed to process some documents" [e], s)
        | .ok emb =>
          match addDocument env c emb s with
          | (s1, some e) =>
            (HResp.serverError "Failed to process some documents" [e], s1)
          | (s1, none) => (HResp.ok "Documents added successfully", s1) := by
    unfold addDocumentsLoop
    simp only [hc]
    rw [if_neg hl]
    cases env.embed c with
    | error e => rfl
    | ok emb =>
      simp only []
      rcases hadd : addDocument env c emb s with ⟨s1, err⟩
      cases err <;> rfl
  rw [hh, hloop]
  unfold uploadDocumentGin
  cases env.embed c with
  | error e => exact ⟨rfl, rfl⟩
  | ok emb =>
    simp only []
    rcases hadd : addDocument env c emb s with ⟨s1, err⟩
    cases err <;> exact ⟨rfl, rfl⟩

/-- Witness for the amended C10 on the already-trimmed content "hello". -/
theorem upload_matches_batch_on_valid_witness :
    (uploadDocumentGin env0 "hello" state0).2
      = (addDocumentsHandler env0 ["hello"] state0).2
    ∧ (uploadDocumentGin env0 "hello" state0).1.isOk
      = (addDocumentsHandler env0 ["hello"] state0).1.isOk :=
  upload_matches_batch_on_valid env0 "hello" state0 (by decide) (by decide)

end RagServer
